import Mathlib

/-!
Verification development for the GIF header decoder (src/parser.rs, src/gif.rs).

The decoder is embedded shallowly:

* Bytes are natural numbers; the byte sequences coming from a file are
  lists of naturals (each in 0..255 at every use site).
* The mutable GifBuffer of src/parser.rs becomes an explicit state value
  threaded through every parse step.
* Every Rust failure point (the implicit out-of-bounds index aborts in
  GifBuffer, the assert on the magic value, the version conversion abort,
  the assert on the image separator) is made explicit as a ParseError
  value, so theorems can talk about which inputs fail and where the cursor
  stands when they do.  The labels record which source failure fired; in
  the Rust source all of them are process-aborting panics, none is a
  recoverable error.
* u8/u16/u32 arithmetic is Nat arithmetic with an explicit mod 2^8 where
  the source narrows with an `as u8` cast.
-/

/-- Outcome labels for every failure point of the source.  In the Rust
code each of these aborts the process; the embedding reifies them so the
failing control paths can be reasoned about. -/
inductive ParseError where
  /-- The implicit bounds check of `self.buffer[...]` in src/parser.rs
  (read_u8, peek_u8, read_slice): reading past the end aborts. -/
  | indexOutOfBounds
  /-- The `assert_eq!("GIF", &magic, ...)` failure in GifSignature::parse,
  also covering the from_utf8 unwrap on the same three bytes. -/
  | invalidSignature
  /-- The abort in `impl From<String> for GifVersion` when the three
  version bytes are neither "87a" nor "89a". -/
  | unsupportedVersion
  /-- The `assert_eq!(0x2C, image_separator, ...)` failure in
  ImageDescriptor::parse. -/
  | invalidImageSeparator
  deriving DecidableEq

/-- GifBuffer from src/parser.rs: the whole file contents, the recorded
file size, and the read position. -/
structure GifBuffer where
  buffer : List Nat
  size : Nat
  pointer : Nat
  deriving DecidableEq

/-- Sequencing for parse steps: a step returns its result together with
the buffer as left behind (the Rust functions mutate the buffer through
`&mut`, so on failure the mutations already performed stay visible). -/
def pbind {α β : Type} (r : Except ParseError α × GifBuffer)
    (f : α → GifBuffer → Except ParseError β × GifBuffer) :
    Except ParseError β × GifBuffer :=
  match r with
  | (Except.error e, b) => (Except.error e, b)
  | (Except.ok a, b) => f a b

namespace GifBuffer

/-- GifBuffer::read_u8: `self.buffer[self.pointer]` then `pointer += 1`.
The index is evaluated before the increment, so an out-of-bounds read
aborts with the pointer unmoved. -/
def read_u8 (b : GifBuffer) : Except ParseError Nat × GifBuffer :=
  if b.pointer < b.buffer.length then
    (Except.ok (b.buffer.getD b.pointer 0), { b with pointer := b.pointer + 1 })
  else
    (Except.error ParseError.indexOutOfBounds, b)

/-- GifBuffer::read_le_u16: two read_u8 calls, low byte first, composed
little-endian (`low | (high << 8)`). -/
def read_le_u16 (b : GifBuffer) : Except ParseError Nat × GifBuffer :=
  pbind (read_u8 b) (fun lo b1 =>
    pbind (read_u8 b1) (fun hi b2 =>
      (Except.ok (lo ||| (hi <<< 8)), b2)))

/-- GifBuffer::peek_u8: `self.buffer[self.pointer]` without advancing. -/
def peek_u8 (b : GifBuffer) : Except ParseError Nat :=
  if b.pointer < b.buffer.length then
    Except.ok (b.buffer.getD b.pointer 0)
  else
    Except.error ParseError.indexOutOfBounds

/-- GifBuffer::read_slice: `self.buffer[self.pointer..self.pointer + bytes]`
then `pointer += bytes`; the slice aborts if fewer than `bytes` remain. -/
def read_slice (n : Nat) (b : GifBuffer) : Except ParseError (List Nat) × GifBuffer :=
  if b.pointer + n ≤ b.buffer.length then
    (Except.ok ((b.buffer.drop b.pointer).take n), { b with pointer := b.pointer + n })
  else
    (Except.error ParseError.indexOutOfBounds, b)

end GifBuffer

/-- GifVersion from src/gif.rs. -/
inductive GifVersion where
  | GIF89a
  | GIF87a
  deriving DecidableEq

/-- GifSignature from src/gif.rs; magic holds the uppercased bytes. -/
structure GifSignature where
  magic : List Nat
  version : GifVersion
  deriving DecidableEq

/-- ASCII uppercasing of one byte.  GifSignature::parse runs
String::from_utf8(...) and str::to_uppercase on the three magic bytes; a
3-byte string can only uppercase to "GIF" when the bytes are ASCII case
variants of it (no Unicode special casing produces "GIF", and invalid
UTF-8 aborts), so the embedding folds the from_utf8 unwrap into the
magic comparison and uppercases byte-wise. -/
def asciiUpper (c : Nat) : Nat :=
  if 97 ≤ c ∧ c ≤ 122 then c - 32 else c

/-- Byte values of the strings used by the signature check:
"GIF" = [71, 73, 70], "87a" = [56, 55, 97], "89a" = [56, 57, 97]. -/
def gifMagicBytes : List Nat := [71, 73, 70]

def version87aBytes : List Nat := [56, 55, 97]

def version89aBytes : List Nat := [56, 57, 97]

/-- GifSignature::parse: read 3 bytes, uppercase, assert "GIF"; then read
3 bytes and convert via From<String> for GifVersion ("89a" / "87a",
anything else aborts).  The magic assertion fires before the version
bytes are read. -/
def GifSignature.parse (b : GifBuffer) : Except ParseError GifSignature × GifBuffer :=
  pbind (GifBuffer.read_slice 3 b) (fun raw b1 =>
    let magic := raw.map asciiUpper
    if magic = gifMagicBytes then
      pbind (GifBuffer.read_slice 3 b1) (fun ver b2 =>
        if ver = version89aBytes then
          (Except.ok { magic := magic, version := GifVersion.GIF89a }, b2)
        else if ver = version87aBytes then
          (Except.ok { magic := magic, version := GifVersion.GIF87a }, b2)
        else
          (Except.error ParseError.unsupportedVersion, b2))
    else
      (Except.error ParseError.invalidSignature, b1))

/-- LSDPackedFields from src/gif.rs. -/
structure LSDPackedFields where
  global_color_table_flag : Bool
  color_resolution : Nat
  sort_flag : Bool
  global_color_table_size : Nat
  deriving DecidableEq

/-- The bit split performed on the byte read by LSDPackedFields::parse. -/
def LSDPackedFields.parseByte (m : Nat) : LSDPackedFields :=
  { global_color_table_flag := (m >>> 7) &&& 0b1 == 1
    color_resolution := ((m >>> 4) &&& 0b111) + 1
    sort_flag := (m >>> 3) &&& 0b1 == 1
    global_color_table_size := (m &&& 0b111) + 1 }

/-- LSDPackedFields::parse: one read_u8, then the bit split. -/
def LSDPackedFields.parse (b : GifBuffer) : Except ParseError LSDPackedFields × GifBuffer :=
  pbind (GifBuffer.read_u8 b) (fun m b1 =>
    (Except.ok (LSDPackedFields.parseByte m), b1))

/-- LogicalScreenDescriptor from src/gif.rs. -/
structure LogicalScreenDescriptor where
  logical_screen_width : Nat
  logical_screen_height : Nat
  packed_fields : LSDPackedFields
  background_color_index : Nat
  pixel_aspect_ratio : Nat
  deriving DecidableEq

/-- LogicalScreenDescriptor::parse: two little-endian u16 reads, the
packed byte, then two u8 reads, in that order. -/
def LogicalScreenDescriptor.parse (b : GifBuffer) :
    Except ParseError LogicalScreenDescriptor × GifBuffer :=
  pbind (GifBuffer.read_le_u16 b) (fun w b1 =>
  pbind (GifBuffer.read_le_u16 b1) (fun h b2 =>
  pbind (LSDPackedFields.parse b2) (fun pf b3 =>
  pbind (GifBuffer.read_u8 b3) (fun bg b4 =>
  pbind (GifBuffer.read_u8 b4) (fun ar b5 =>
    (Except.ok { logical_screen_width := w
                 logical_screen_height := h
                 packed_fields := pf
                 background_color_index := bg
                 pixel_aspect_ratio := ar }, b5))))))

/-- GlobalColorMap from src/gif.rs. -/
structure GlobalColorMap where
  intensities : List Nat
  size : Nat
  deriving DecidableEq

/-- The per-byte transform of GlobalColorMap::parse:
`((raw as u32 * 255) / ((1u32 << pixel) - 1)) as u8`.  The u32 products
stay below 2^32, so only the final `as u8` narrows: mod 2^8. -/
def scaleIntensity (pixel raw : Nat) : Nat :=
  (raw * 255 / ((1 <<< pixel) - 1)) % 256

/-- The read loop of GlobalColorMap::parse: n bytes read with read_u8,
each stored after scaleIntensity; accumulator carried reversed. -/
def readScaledBytes (pixel : Nat) : Nat → GifBuffer → List Nat →
    Except ParseError (List Nat) × GifBuffer
  | 0, b, acc => (Except.ok acc.reverse, b)
  | Nat.succ m, b, acc =>
    pbind (GifBuffer.read_u8 b) (fun r b1 =>
      readScaledBytes pixel m b1 (scaleIntensity pixel r :: acc))

/-- GlobalColorMap::parse: nothing when the screen descriptor's global
color table flag is clear; otherwise 3 * 2^pixel scaled bytes, with
pixel the (already incremented) global_color_table_size field. -/
def GlobalColorMap.parse (b : GifBuffer) (sd : LogicalScreenDescriptor) :
    Except ParseError (Option GlobalColorMap) × GifBuffer :=
  if !sd.packed_fields.global_color_table_flag then
    (Except.ok none, b)
  else
    let pixel := sd.packed_fields.global_color_table_size
    let size := 3 * 2 ^ pixel
    pbind (readScaledBytes pixel size b []) (fun ints b1 =>
      (Except.ok (some { intensities := ints, size := size }), b1))

/-- IDPackedFields from src/gif.rs. -/
structure IDPackedFields where
  local_color_table_flag : Bool
  interlace_flag : Bool
  sort_flag : Bool
  reserved : Nat
  local_color_table_size : Nat
  deriving DecidableEq

/-- The bit split performed on the byte read by IDPackedFields::parse.
Note the source takes `reserved` from bits 5-4 (`(m_u8 >> 4) & 0b11`),
re-reading bit 5 and leaving bit 3 unread. -/
def IDPackedFields.parseByte (m : Nat) : IDPackedFields :=
  { local_color_table_flag := (m >>> 7) &&& 0b1 == 1
    interlace_flag := (m >>> 6) &&& 0b1 == 1
    sort_flag := (m >>> 5) &&& 0b1 == 1
    reserved := (m >>> 4) &&& 0b11
    local_color_table_size := (m &&& 0b111) + 1 }

/-- IDPackedFields::parse: one read_u8, then the bit split. -/
def IDPackedFields.parse (b : GifBuffer) : Except ParseError IDPackedFields × GifBuffer :=
  pbind (GifBuffer.read_u8 b) (fun m b1 =>
    (Except.ok (IDPackedFields.parseByte m), b1))

/-- ImageDescriptor from src/gif.rs. -/
structure ImageDescriptor where
  image_left : Nat
  image_top : Nat
  image_width : Nat
  image_height : Nat
  packed_fields : IDPackedFields
  deriving DecidableEq

/-- ImageDescriptor::parse: one separator byte asserted to be 0x2C (the
assertion fires before any further read), then four little-endian u16
fields and the packed byte. -/
def ImageDescriptor.parse (b : GifBuffer) : Except ParseError ImageDescriptor × GifBuffer :=
  pbind (GifBuffer.read_u8 b) (fun sep b1 =>
    if sep = 0x2C then
      pbind (GifBuffer.read_le_u16 b1) (fun left b2 =>
      pbind (GifBuffer.read_le_u16 b2) (fun top b3 =>
      pbind (GifBuffer.read_le_u16 b3) (fun width b4 =>
      pbind (GifBuffer.read_le_u16 b4) (fun height b5 =>
      pbind (IDPackedFields.parse b5) (fun pf b6 =>
        (Except.ok { image_left := left
                     image_top := top
                     image_width := width
                     image_height := height
                     packed_fields := pf }, b6))))))
    else
      (Except.error ParseError.invalidImageSeparator, b1))

/-- LocalColorMap from src/gif.rs: a placeholder with no payload. -/
structure LocalColorMap where
  deriving DecidableEq

/-- LocalColorMap::parse: None when the image descriptor's local color
table flag is clear, Some marker otherwise; no bytes are consumed in
either case. -/
def LocalColorMap.parse (b : GifBuffer) (id : ImageDescriptor) :
    Option LocalColorMap × GifBuffer :=
  if !id.packed_fields.local_color_table_flag then
    (none, b)
  else
    (some {}, b)

/-- RasterData from src/gif.rs: a placeholder with no payload. -/
structure RasterData where
  deriving DecidableEq

/-- RasterData::parse: inspects the interlace flag, consumes nothing. -/
def RasterData.parse (b : GifBuffer) (_id : ImageDescriptor) : RasterData × GifBuffer :=
  ({}, b)

/-- DescriptorGroup from src/gif.rs. -/
structure DescriptorGroup where
  image_descriptor : ImageDescriptor
  local_color_map : Option LocalColorMap
  raster_data : RasterData
  deriving DecidableEq

/-- DescriptorGroup::parse: image descriptor, then the local color map
and raster data placeholders. -/
def DescriptorGroup.parse (b : GifBuffer) : Except ParseError DescriptorGroup × GifBuffer :=
  pbind (ImageDescriptor.parse b) (fun id b1 =>
    match LocalColorMap.parse b1 id with
    | (lcm, b2) =>
      match RasterData.parse b2 id with
      | (rd, b3) =>
        (Except.ok { image_descriptor := id
                     local_color_map := lcm
                     raster_data := rd }, b3))

/-- Gif from src/gif.rs. -/
structure Gif where
  signature : GifSignature
  logical_screen_descriptor : LogicalScreenDescriptor
  global_color_map : Option GlobalColorMap
  descriptor_groups : List DescriptorGroup
  deriving DecidableEq

/-- Gif::decode over the byte sequence of one file (GifBuffer::read is the
file-loading glue; its result is a buffer holding the whole file with the
pointer at 0).  Signature, screen descriptor, optional global color map,
then exactly one descriptor group pushed onto the list; the trailer loop
in the source is commented out. -/
def Gif.decode (bytes : List Nat) : Except ParseError Gif × GifBuffer :=
  pbind (GifSignature.parse { buffer := bytes, size := bytes.length, pointer := 0 })
    (fun sig b1 =>
  pbind (LogicalScreenDescriptor.parse b1) (fun lsd b2 =>
  pbind (GlobalColorMap.parse b2 lsd) (fun gcm b3 =>
  pbind (DescriptorGroup.parse b3) (fun grp b4 =>
    (Except.ok { signature := sig
                 logical_screen_descriptor := lsd
                 global_color_map := gcm
                 descriptor_groups := [grp] }, b4)))))

/-- Modelled from the spec: re-encoder for the screen-descriptor packed
fields at the bit positions of the data model (bit 7 flag, bits 6-4
resolution minus one, bit 3 sort flag, bits 2-0 size exponent minus
one); the round-trip claim compares it against the decoder. -/
def LSDPackedFields.encode (f : LSDPackedFields) : Nat :=
  ((cond f.global_color_table_flag 1 0) <<< 7) |||
  ((f.color_resolution - 1) <<< 4) |||
  ((cond f.sort_flag 1 0) <<< 3) |||
  (f.global_color_table_size - 1)

/-- Modelled from the spec: re-encoder for the image-descriptor packed
fields (bit 7 local-table flag, bit 6 interlace, bit 5 sort, bits 4-3
reserved, bits 2-0 size exponent minus one). -/
def IDPackedFields.encode (f : IDPackedFields) : Nat :=
  ((cond f.local_color_table_flag 1 0) <<< 7) |||
  ((cond f.interlace_flag 1 0) <<< 6) |||
  ((cond f.sort_flag 1 0) <<< 5) |||
  (f.reserved <<< 3) |||
  (f.local_color_table_size - 1)

/-- A minimal well-formed stream: "GIF89a", 10 x 5 screen, packed byte 0
(no global color table), then one image descriptor; 23 bytes. -/
def sampleNoTable : List Nat :=
  [71, 73, 70, 56, 57, 97, 10, 0, 5, 0, 0, 0, 0, 44, 0, 0, 0, 0, 3, 0, 2, 0, 0]

/-- The Gif value decoded from sampleNoTable. -/
def gifNoTable : Gif :=
  { signature := { magic := gifMagicBytes, version := GifVersion.GIF89a }
    logical_screen_descriptor :=
      { logical_screen_width := 10
        logical_screen_height := 5
        packed_fields := LSDPackedFields.parseByte 0
        background_color_index := 0
        pixel_aspect_ratio := 0 }
    global_color_map := none
    descriptor_groups :=
      [{ image_descriptor :=
          { image_left := 0, image_top := 0, image_width := 3, image_height := 2
            packed_fields := IDPackedFields.parseByte 0 }
         local_color_map := none
         raster_data := {} }] }

/-- A well-formed stream with a global color table: "GIF87a", 3 x 4
screen, packed byte 0x80 (table present, size exponent 1, hence 6 table
bytes), then one image descriptor with packed byte 0x81; 29 bytes. -/
def sampleWithTable : List Nat :=
  [71, 73, 70, 56, 55, 97, 3, 0, 4, 0, 128, 5, 0,
   10, 20, 30, 40, 50, 60, 44, 1, 0, 2, 0, 3, 0, 4, 0, 129]

/-- The Gif value decoded from sampleWithTable. -/
def gifWithTable : Gif :=
  { signature := { magic := gifMagicBytes, version := GifVersion.GIF87a }
    logical_screen_descriptor :=
      { logical_screen_width := 3
        logical_screen_height := 4
        packed_fields := LSDPackedFields.parseByte 128
        background_color_index := 5
        pixel_aspect_ratio := 0 }
    global_color_map := some { intensities := [246, 236, 226, 216, 206, 196], size := 6 }
    descriptor_groups :=
      [{ image_descriptor :=
          { image_left := 1, image_top := 2, image_width := 3, image_height := 4
            packed_fields := IDPackedFields.parseByte 129 }
         local_color_map := some {}
         raster_data := {} }] }

/-- A screen descriptor whose packed byte 0x80 sets the global-color-table
flag with size exponent 1; concrete input for the color-map claims. -/
def sdTableE1 : LogicalScreenDescriptor :=
  { logical_screen_width := 0
    logical_screen_height := 0
    packed_fields := LSDPackedFields.parseByte 128
    background_color_index := 0
    pixel_aspect_ratio := 0 }

/-- A screen descriptor with the global-color-table flag clear. -/
def sdNoTable : LogicalScreenDescriptor :=
  { logical_screen_width := 0
    logical_screen_height := 0
    packed_fields := LSDPackedFields.parseByte 0
    background_color_index := 0
    pixel_aspect_ratio := 0 }

/-! ### Helper lemmas about the cursor primitives -/

theorem pbind_ok {α β : Type} {r : Except ParseError α × GifBuffer}
    {f : α → GifBuffer → Except ParseError β × GifBuffer} {x : β} {b2 : GifBuffer}
    (h : pbind r f = (Except.ok x, b2)) :
    ∃ a bm, r = (Except.ok a, bm) ∧ f a bm = (Except.ok x, b2) := by
  rcases r with ⟨res, bm⟩
  cases res with
  | error e => simp [pbind] at h
  | ok a => exact ⟨a, bm, rfl, h⟩

theorem read_u8_ok_of_lt {b : GifBuffer} (h : b.pointer < b.buffer.length) :
    GifBuffer.read_u8 b =
      (Except.ok (b.buffer.getD b.pointer 0), { b with pointer := b.pointer + 1 }) := by
  simp [GifBuffer.read_u8, h]

theorem read_u8_ok_inv {b : GifBuffer} {v : Nat} {b2 : GifBuffer}
    (h : GifBuffer.read_u8 b = (Except.ok v, b2)) :
    v = b.buffer.getD b.pointer 0 ∧ b2 = { b with pointer := b.pointer + 1 } ∧
      b.pointer < b.buffer.length := by
  unfold GifBuffer.read_u8 at h
  split at h
  case isTrue hlt =>
    injection h with h1 h2
    injection h1 with h1
    exact ⟨h1.symm, h2.symm, hlt⟩
  case isFalse hlt =>
    injection h with h1 h2
    cases h1

theorem read_slice_ok_of_le {n : Nat} {b : GifBuffer} (h : b.pointer + n ≤ b.buffer.length) :
    GifBuffer.read_slice n b =
      (Except.ok ((b.buffer.drop b.pointer).take n), { b with pointer := b.pointer + n }) := by
  simp [GifBuffer.read_slice, h]

theorem read_slice_ok_inv {n : Nat} {b : GifBuffer} {v : List Nat} {b2 : GifBuffer}
    (h : GifBuffer.read_slice n b = (Except.ok v, b2)) :
    v = (b.buffer.drop b.pointer).take n ∧ b2 = { b with pointer := b.pointer + n } ∧
      b.pointer + n ≤ b.buffer.length := by
  unfold GifBuffer.read_slice at h
  split at h
  case isTrue hle =>
    injection h with h1 h2
    injection h1 with h1
    exact ⟨h1.symm, h2.symm, hle⟩
  case isFalse hle =>
    injection h with h1 h2
    cases h1

theorem read_le_u16_ok_inv {b : GifBuffer} {v : Nat} {b2 : GifBuffer}
    (h : GifBuffer.read_le_u16 b = (Except.ok v, b2)) :
    b2 = { b with pointer := b.pointer + 2 } := by
  unfold GifBuffer.read_le_u16 at h
  obtain ⟨lo, b1, h1, h⟩ := pbind_ok h
  obtain ⟨hi, bm, h2, h⟩ := pbind_ok h
  injection h with h3 h4
  obtain ⟨-, rfl, -⟩ := read_u8_ok_inv h1
  obtain ⟨-, rfl, -⟩ := read_u8_ok_inv h2
  exact h4.symm

theorem lsd_packed_parse_ok_inv {b : GifBuffer} {f : LSDPackedFields} {b2 : GifBuffer}
    (h : LSDPackedFields.parse b = (Except.ok f, b2)) :
    f = LSDPackedFields.parseByte (b.buffer.getD b.pointer 0) ∧
      b2 = { b with pointer := b.pointer + 1 } := by
  unfold LSDPackedFields.parse at h
  obtain ⟨m, b1, h1, h⟩ := pbind_ok h
  obtain ⟨rfl, rfl, -⟩ := read_u8_ok_inv h1
  injection h with h3 h4
  injection h3 with h3
  exact ⟨h3.symm, h4.symm⟩

theorem id_packed_parse_ok_inv {b : GifBuffer} {f : IDPackedFields} {b2 : GifBuffer}
    (h : IDPackedFields.parse b = (Except.ok f, b2)) :
    f = IDPackedFields.parseByte (b.buffer.getD b.pointer 0) ∧
      b2 = { b with pointer := b.pointer + 1 } := by
  unfold IDPackedFields.parse at h
  obtain ⟨m, b1, h1, h⟩ := pbind_ok h
  obtain ⟨rfl, rfl, -⟩ := read_u8_ok_inv h1
  injection h with h3 h4
  injection h3 with h3
  exact ⟨h3.symm, h4.symm⟩

theorem pointer_update_congr (b : GifBuffer) {m n : Nat} (h : m = n) :
    ({ b with pointer := m } : GifBuffer) = { b with pointer := n } := by
  rw [h]

theorem signature_parse_ok_inv {b : GifBuffer} {s : GifSignature} {b2 : GifBuffer}
    (h : GifSignature.parse b = (Except.ok s, b2)) :
    b2 = { b with pointer := b.pointer + 6 } := by
  unfold GifSignature.parse at h
  obtain ⟨raw, b1, h1, h⟩ := pbind_ok h
  simp only at h
  split at h
  case isTrue hm =>
    obtain ⟨ver, bm, h2, h⟩ := pbind_ok h
    obtain ⟨-, rfl, -⟩ := read_slice_ok_inv h1
    obtain ⟨-, rfl, -⟩ := read_slice_ok_inv h2
    split at h
    case isTrue =>
      injection h with h3 h4
      rw [← h4]
    case isFalse =>
      split at h
      case isTrue =>
        injection h with h3 h4
        rw [← h4]
      case isFalse =>
        injection h with h3 h4
        cases h3
  case isFalse hm =>
    injection h with h3 h4
    cases h3

theorem lsd_parse_ok_inv {b : GifBuffer} {d : LogicalScreenDescriptor} {b2 : GifBuffer}
    (h : LogicalScreenDescriptor.parse b = (Except.ok d, b2)) :
    b2 = { b with pointer := b.pointer + 7 } ∧
      d.packed_fields = LSDPackedFields.parseByte (b.buffer.getD (b.pointer + 4) 0) := by
  unfold LogicalScreenDescriptor.parse at h
  obtain ⟨w, b1, h1, h⟩ := pbind_ok h
  obtain ⟨hgt, bb2, h2, h⟩ := pbind_ok h
  obtain ⟨pf, b3, h3, h⟩ := pbind_ok h
  obtain ⟨bg, b4, h4, h⟩ := pbind_ok h
  obtain ⟨ar, b5, h5, h⟩ := pbind_ok h
  obtain rfl := read_le_u16_ok_inv h1
  obtain rfl := read_le_u16_ok_inv h2
  obtain ⟨rfl, rfl⟩ := lsd_packed_parse_ok_inv h3
  obtain ⟨-, rfl, -⟩ := read_u8_ok_inv h4
  obtain ⟨-, rfl, -⟩ := read_u8_ok_inv h5
  injection h with h6 h7
  injection h6 with h6
  constructor
  · rw [← h7]
  · rw [← h6]

theorem readScaledBytes_ok_inv {pixel : Nat} :
    ∀ {n : Nat} {b : GifBuffer} {acc l : List Nat} {b2 : GifBuffer},
      readScaledBytes pixel n b acc = (Except.ok l, b2) →
      b2 = { b with pointer := b.pointer + n } := by
  intro n
  induction n with
  | zero =>
    intro b acc l b2 h
    unfold readScaledBytes at h
    injection h with h1 h2
    rw [← h2]
    rfl
  | succ m ih =>
    intro b acc l b2 h
    unfold readScaledBytes at h
    obtain ⟨r, b1, h1, h⟩ := pbind_ok h
    obtain ⟨-, rfl, -⟩ := read_u8_ok_inv h1
    obtain rfl := ih h
    exact pointer_update_congr b (by dsimp only; omega)

theorem gcm_parse_ok_inv {b : GifBuffer} {sd : LogicalScreenDescriptor}
    {o : Option GlobalColorMap} {b2 : GifBuffer}
    (h : GlobalColorMap.parse b sd = (Except.ok o, b2)) :
    b2 = { b with pointer := b.pointer +
      (if sd.packed_fields.global_color_table_flag then
        3 * 2 ^ sd.packed_fields.global_color_table_size else 0) } := by
  unfold GlobalColorMap.parse at h
  cases hf : sd.packed_fields.global_color_table_flag with
  | false =>
    rw [hf] at h
    simp only [Bool.not_false, if_pos] at h
    injection h with h1 h2
    rw [← h2, if_neg (by simp [hf])]
    rfl
  | true =>
    rw [hf] at h
    simp only [Bool.not_true, Bool.false_eq_true, if_false] at h
    obtain ⟨ints, b1, h1, h⟩ := pbind_ok h
    obtain rfl := readScaledBytes_ok_inv h1
    injection h with h2 h3
    rw [← h3, if_pos (by simp [hf])]

theorem id_parse_ok_inv {b : GifBuffer} {d : ImageDescriptor} {b2 : GifBuffer}
    (h : ImageDescriptor.parse b = (Except.ok d, b2)) :
    b2 = { b with pointer := b.pointer + 10 } := by
  unfold ImageDescriptor.parse at h
  obtain ⟨sep, b1, h1, h⟩ := pbind_ok h
  obtain ⟨-, rfl, -⟩ := read_u8_ok_inv h1
  split at h
  case isTrue hsep =>
    obtain ⟨left, bb2, h2, h⟩ := pbind_ok h
    obtain ⟨top, b3, h3, h⟩ := pbind_ok h
    obtain ⟨width, b4, h4, h⟩ := pbind_ok h
    obtain ⟨height, b5, h5, h⟩ := pbind_ok h
    obtain ⟨pf, b6, h6, h⟩ := pbind_ok h
    obtain rfl := read_le_u16_ok_inv h2
    obtain rfl := read_le_u16_ok_inv h3
    obtain rfl := read_le_u16_ok_inv h4
    obtain rfl := read_le_u16_ok_inv h5
    obtain ⟨-, rfl⟩ := id_packed_parse_ok_inv h6
    injection h with h7 h8
    rw [← h8]
  case isFalse hsep =>
    injection h with h7 h8
    cases h7

theorem group_parse_ok_inv {b : GifBuffer} {g : DescriptorGroup} {b2 : GifBuffer}
    (h : DescriptorGroup.parse b = (Except.ok g, b2)) :
    b2 = { b with pointer := b.pointer + 10 } := by
  unfold DescriptorGroup.parse at h
  obtain ⟨id, b1, h1, h⟩ := pbind_ok h
  obtain rfl := id_parse_ok_inv h1
  rcases hl : LocalColorMap.parse { b with pointer := b.pointer + 10 } id with ⟨lcm, bl⟩
  have hbl : bl = { b with pointer := b.pointer + 10 } := by
    have h2 := congrArg Prod.snd hl
    unfold LocalColorMap.parse at h2
    split at h2 <;> exact h2.symm
  rw [hl] at h
  injection h with h2 h3
  rw [← h3, hbl]

theorem drop_take_succ {l : List Nat} {p m : Nat} (h : p < l.length) :
    (l.drop p).take (m + 1) = l.getD p 0 :: (l.drop (p + 1)).take m := by
  rw [List.drop_eq_getElem_cons h, List.take_succ_cons, List.getD_eq_getElem?_getD,
    List.getElem?_eq_getElem h, Option.getD_some]

theorem readScaledBytes_ok_of_le {pixel : Nat} :
    ∀ {n : Nat} {b : GifBuffer} {acc : List Nat},
      b.pointer + n ≤ b.buffer.length →
      readScaledBytes pixel n b acc =
        (Except.ok (acc.reverse ++
            ((b.buffer.drop b.pointer).take n).map (scaleIntensity pixel)),
          { b with pointer := b.pointer + n }) := by
  intro n
  induction n with
  | zero =>
    intro b acc h
    unfold readScaledBytes
    simp
  | succ m ih =>
    intro b acc h
    unfold readScaledBytes
    rw [read_u8_ok_of_lt (by omega)]
    simp only [pbind]
    rw [ih (by dsimp only; omega)]
    refine congrArg₂ Prod.mk ?_ (pointer_update_congr _ (by dsimp only; omega))
    refine congrArg Except.ok ?_
    dsimp only
    rw [drop_take_succ (by omega), List.map_cons, List.reverse_cons,
      List.append_assoc, List.singleton_append]

/-! ### Claim theorems -/

/-- C1: with exactly enough remaining bytes every cursor read primitive
succeeds, but a read even one byte short ends in the indexOutOfBounds
abort of the Rust slice indexing — a process-killing abort, not a
recoverable BufferUnderrun error propagated to the caller of decode (no
such error value exists anywhere in the source). -/
theorem read_primitives_exact_fit_and_underrun_abort :
    GifBuffer.read_u8 ⟨[7], 1, 0⟩ = (Except.ok 7, ⟨[7], 1, 1⟩) ∧
    GifBuffer.read_u8 ⟨[7], 1, 1⟩ = (Except.error ParseError.indexOutOfBounds, ⟨[7], 1, 1⟩) ∧
    GifBuffer.read_slice 2 ⟨[7, 8], 2, 0⟩ = (Except.ok [7, 8], ⟨[7, 8], 2, 2⟩) ∧
    GifBuffer.read_slice 2 ⟨[7], 1, 0⟩ =
      (Except.error ParseError.indexOutOfBounds, ⟨[7], 1, 0⟩) ∧
    GifBuffer.read_le_u16 ⟨[7, 8], 2, 0⟩ = (Except.ok (7 ||| (8 <<< 8)), ⟨[7, 8], 2, 2⟩) ∧
    GifBuffer.read_le_u16 ⟨[7], 1, 0⟩ =
      (Except.error ParseError.indexOutOfBounds, ⟨[7], 1, 1⟩) ∧
    GifBuffer.peek_u8 ⟨[7], 1, 0⟩ = Except.ok 7 ∧
    GifBuffer.peek_u8 ⟨[], 0, 0⟩ = Except.error ParseError.indexOutOfBounds :=
  ⟨rfl, rfl, rfl, rfl, rfl, rfl, rfl, rfl⟩

set_option maxRecDepth 4096 in
/-- C3: the screen-descriptor packed byte round-trips through
decode/encode for all 256 values, but the image-descriptor bit split
drops bit 3 (reserved is taken from bits 5-4), so bytes 0x08 and 0x00
decode to identical components and no re-encoding can reproduce 0x08. -/
theorem packedFields_roundtrip_lsd_ok_id_bit3_lost :
    (∀ v < 256, LSDPackedFields.encode (LSDPackedFields.parseByte v) = v) ∧
    IDPackedFields.parseByte 8 = IDPackedFields.parseByte 0 ∧
    IDPackedFields.encode (IDPackedFields.parseByte 8) ≠ 8 := by
  decide

/-- C5: the screen-descriptor packed-fields decoder extracts exactly the
documented bit positions from the packed byte: bit 7 as the flag, bits
6-4 plus one as the color resolution, bit 3 as the sort flag, bits 2-0
plus one as the size exponent; it consumes exactly that one byte. -/
theorem lsdPackedFields_bit_extraction (b : GifBuffer) (h : b.pointer < b.buffer.length) :
    ∃ f, LSDPackedFields.parse b = (Except.ok f, { b with pointer := b.pointer + 1 }) ∧
      f.global_color_table_flag = ((b.buffer.getD b.pointer 0 >>> 7) &&& 0b1 == 1) ∧
      f.color_resolution = ((b.buffer.getD b.pointer 0 >>> 4) &&& 0b111) + 1 ∧
      f.sort_flag = ((b.buffer.getD b.pointer 0 >>> 3) &&& 0b1 == 1) ∧
      f.global_color_table_size = ((b.buffer.getD b.pointer 0) &&& 0b111) + 1 := by
  refine ⟨LSDPackedFields.parseByte (b.buffer.getD b.pointer 0), ?_, rfl, rfl, rfl, rfl⟩
  unfold LSDPackedFields.parse
  rw [read_u8_ok_of_lt h]
  rfl

/-- Claim C5 witness: the bit extraction at the concrete packed byte 0xAB. -/
theorem lsdPackedFields_bit_extraction_witness :
    ∃ f, LSDPackedFields.parse ⟨[171], 1, 0⟩ = (Except.ok f, ⟨[171], 1, 1⟩) ∧
      f.global_color_table_flag = ((171 >>> 7) &&& 0b1 == 1) ∧
      f.color_resolution = ((171 >>> 4) &&& 0b111) + 1 ∧
      f.sort_flag = ((171 >>> 3) &&& 0b1 == 1) ∧
      f.global_color_table_size = ((171 : Nat) &&& 0b111) + 1 :=
  lsdPackedFields_bit_extraction ⟨[171], 1, 0⟩ (by decide)

/-- C7: when the next byte is not the 0x2C separator, the
image-descriptor decoder fails at the separator check having consumed
exactly that one byte — the cursor stands one past where it started and
no further read is attempted. -/
theorem imageDescriptor_bad_separator_one_byte (b : GifBuffer)
    (h1 : b.pointer < b.buffer.length) (h2 : b.buffer.getD b.pointer 0 ≠ 44) :
    ImageDescriptor.parse b =
      (Except.error ParseError.invalidImageSeparator, { b with pointer := b.pointer + 1 }) := by
  unfold ImageDescriptor.parse
  rw [read_u8_ok_of_lt h1]
  simp only [pbind]
  rw [if_neg h2]

/-- Claim C7 witness: the descriptor decoder rejects the extension
introducer byte 0x21 after consuming exactly one byte. -/
theorem imageDescriptor_bad_separator_one_byte_witness :
    ImageDescriptor.parse ⟨[33], 1, 0⟩ =
      (Except.error ParseError.invalidImageSeparator, ⟨[33], 1, 1⟩) :=
  imageDescriptor_bad_separator_one_byte ⟨[33], 1, 0⟩ (by decide) (by decide)

/-- C9: with at least two remaining bytes, read_le_u16 returns
low ||| (high <<< 8) built from the two bytes at the cursor and advances
the cursor by exactly two. -/
theorem read_le_u16_little_endian (b : GifBuffer) (h : b.pointer + 2 ≤ b.buffer.length) :
    GifBuffer.read_le_u16 b =
      (Except.ok ((b.buffer.getD b.pointer 0) ||| ((b.buffer.getD (b.pointer + 1) 0) <<< 8)),
        { b with pointer := b.pointer + 2 }) := by
  unfold GifBuffer.read_le_u16
  rw [read_u8_ok_of_lt (by omega)]
  simp only [pbind]
  rw [read_u8_ok_of_lt (by dsimp only; omega)]

/-- Claim C9 witness: reading 0x07 then 0x08 yields 0x0807 and leaves the
cursor at offset two. -/
theorem read_le_u16_little_endian_witness :
    GifBuffer.read_le_u16 ⟨[7, 8], 2, 0⟩ = (Except.ok (7 ||| (8 <<< 8)), ⟨[7, 8], 2, 2⟩) :=
  read_le_u16_little_endian ⟨[7, 8], 2, 0⟩ (by decide)

/-- Claim C2 counterexample: with size exponent 1, a raw byte 2 would by
the claim be stored as floor(2 * 255 / (2^1 - 1)) = 510, but the decoder
stores 510 mod 256 = 254 (the `as u8` narrowing). -/
theorem scaled_intensity_truncation_cex :
    (GlobalColorMap.parse ⟨[2, 0, 0, 0, 0, 0], 6, 0⟩ sdTableE1).1 =
      Except.ok (some { intensities := [254, 0, 0, 0, 0, 0], size := 6 }) ∧
    (254 : Nat) ≠ 2 * 255 / (2 ^ 1 - 1) :=
  ⟨rfl, by decide⟩

/-- C2 (amended): every stored global-color-table entry equals
floor(raw * 255 / (2^e - 1)) reduced modulo 256, e the size exponent of
the screen descriptor. -/
theorem globalColorMap_entries_scaled_mod256 (b : GifBuffer) (sd : LogicalScreenDescriptor)
    (hf : sd.packed_fields.global_color_table_flag = true)
    (hlen : b.pointer + 3 * 2 ^ sd.packed_fields.global_color_table_size ≤ b.buffer.length) :
    (GlobalColorMap.parse b sd).1 = Except.ok (some
      { intensities :=
          ((b.buffer.drop b.pointer).take
              (3 * 2 ^ sd.packed_fields.global_color_table_size)).map
            (fun r => r * 255 / (2 ^ sd.packed_fields.global_color_table_size - 1) % 256)
        size := 3 * 2 ^ sd.packed_fields.global_color_table_size }) := by
  unfold GlobalColorMap.parse
  rw [hf]
  simp only [Bool.not_true, Bool.false_eq_true, if_false]
  rw [readScaledBytes_ok_of_le hlen]
  simp only [pbind, List.reverse_nil, List.nil_append]
  have hfun : scaleIntensity sd.packed_fields.global_color_table_size =
      fun r => r * 255 / (2 ^ sd.packed_fields.global_color_table_size - 1) % 256 := by
    funext r
    rw [scaleIntensity, Nat.one_shiftLeft]
  rw [hfun]

/-- Claim C2 witness (amended claim at a concrete input): size exponent
1, raw bytes [2, 0, 0, 0, 0, 0] stored as their scaled values mod 256. -/
theorem globalColorMap_entries_scaled_mod256_witness :
    (GlobalColorMap.parse ⟨[2, 0, 0, 0, 0, 0], 6, 0⟩ sdTableE1).1 =
      Except.ok (some
        { intensities := [2, 0, 0, 0, 0, 0].map (fun r => r * 255 / (2 ^ 1 - 1) % 256)
          size := 6 }) :=
  globalColorMap_entries_scaled_mod256 ⟨[2, 0, 0, 0, 0, 0], 6, 0⟩ sdTableE1 rfl (by decide)

/-- Claim C4 counterexample: the prefix "gif89a" differs from both
"GIF87a" and "GIF89a", yet signature decoding succeeds (the magic bytes
are uppercased before the comparison), contradicting the claim that
every other 6-byte prefix fails. -/
theorem signature_lowercase_accepted_cex :
    (GifSignature.parse ⟨[103, 105, 102, 56, 57, 97], 6, 0⟩).1 =
      Except.ok { magic := gifMagicBytes, version := GifVersion.GIF89a } ∧
    [103, 105, 102, 56, 57, 97] ≠ [71, 73, 70, 56, 55, 97] ∧
    [103, 105, 102, 56, 57, 97] ≠ [71, 73, 70, 56, 57, 97] :=
  ⟨rfl, by decide, by decide⟩

theorem signature_parse_eval (b : GifBuffer) (h : b.pointer + 6 ≤ b.buffer.length) :
    GifSignature.parse b =
      (if ((b.buffer.drop b.pointer).take 3).map asciiUpper = gifMagicBytes then
        if (b.buffer.drop (b.pointer + 3)).take 3 = version89aBytes then
          (Except.ok { magic := ((b.buffer.drop b.pointer).take 3).map asciiUpper
                       version := GifVersion.GIF89a },
            { b with pointer := b.pointer + 6 })
        else if (b.buffer.drop (b.pointer + 3)).take 3 = version87aBytes then
          (Except.ok { magic := ((b.buffer.drop b.pointer).take 3).map asciiUpper
                       version := GifVersion.GIF87a },
            { b with pointer := b.pointer + 6 })
        else
          (Except.error ParseError.unsupportedVersion, { b with pointer := b.pointer + 6 })
      else
        (Except.error ParseError.invalidSignature, { b with pointer := b.pointer + 3 })) := by
  unfold GifSignature.parse
  rw [read_slice_ok_of_le (by omega)]
  simp only [pbind]
  by_cases hm : ((b.buffer.drop b.pointer).take 3).map asciiUpper = gifMagicBytes
  · rw [if_pos hm, if_pos hm, read_slice_ok_of_le (by dsimp only; omega)]
  · rw [if_neg hm, if_neg hm]

/-- C4 (amended): with six bytes available, signature decoding succeeds
exactly when the first three bytes ASCII-uppercase to "GIF" and the next
three are exactly "87a" or "89a" — every other 6-byte prefix fails; on
success the yielded version matches the version bytes, and on failure
the error is the magic assertion or the version conversion abort. -/
theorem signature_success_characterization (b : GifBuffer)
    (h : b.pointer + 6 ≤ b.buffer.length) :
    ((∃ s b2, GifSignature.parse b = (Except.ok s, b2)) ↔
      (((b.buffer.drop b.pointer).take 3).map asciiUpper = gifMagicBytes ∧
        ((b.buffer.drop (b.pointer + 3)).take 3 = version87aBytes ∨
         (b.buffer.drop (b.pointer + 3)).take 3 = version89aBytes))) ∧
    (∀ s b2, GifSignature.parse b = (Except.ok s, b2) →
      s.magic = gifMagicBytes ∧
      ((s.version = GifVersion.GIF87a ∧
          (b.buffer.drop (b.pointer + 3)).take 3 = version87aBytes) ∨
       (s.version = GifVersion.GIF89a ∧
          (b.buffer.drop (b.pointer + 3)).take 3 = version89aBytes))) ∧
    (∀ e b2, GifSignature.parse b = (Except.error e, b2) →
      e = ParseError.invalidSignature ∨ e = ParseError.unsupportedVersion) := by
  rw [signature_parse_eval b h]
  by_cases hm : ((b.buffer.drop b.pointer).take 3).map asciiUpper = gifMagicBytes
  · rw [if_pos hm]
    by_cases h89 : (b.buffer.drop (b.pointer + 3)).take 3 = version89aBytes
    · rw [if_pos h89]
      refine ⟨⟨fun _ => ⟨hm, Or.inr h89⟩, fun _ => ⟨_, _, rfl⟩⟩, ?_, ?_⟩
      · rintro s b2 hp
        injection hp with h1 h2
        injection h1 with h1
        rw [← h1]
        exact ⟨hm, Or.inr ⟨rfl, h89⟩⟩
      · rintro e b2 hp
        injection hp with h1 h2
        exact Except.noConfusion h1
    · rw [if_neg h89]
      by_cases h87 : (b.buffer.drop (b.pointer + 3)).take 3 = version87aBytes
      · rw [if_pos h87]
        refine ⟨⟨fun _ => ⟨hm, Or.inl h87⟩, fun _ => ⟨_, _, rfl⟩⟩, ?_, ?_⟩
        · rintro s b2 hp
          injection hp with h1 h2
          injection h1 with h1
          rw [← h1]
          exact ⟨hm, Or.inl ⟨rfl, h87⟩⟩
        · rintro e b2 hp
          injection hp with h1 h2
          exact Except.noConfusion h1
      · rw [if_neg h87]
        refine ⟨⟨?_, ?_⟩, ?_, ?_⟩
        · rintro ⟨s, b2, hp⟩
          injection hp with h1 h2
          exact Except.noConfusion h1
        · rintro ⟨-, hv | hv⟩
          · exact absurd hv h87
          · exact absurd hv h89
        · rintro s b2 hp
          injection hp with h1 h2
          exact Except.noConfusion h1
        · rintro e b2 hp
          injection hp with h1 h2
          injection h1 with h1
          exact Or.inr h1.symm
  · rw [if_neg hm]
    refine ⟨⟨?_, ?_⟩, ?_, ?_⟩
    · rintro ⟨s, b2, hp⟩
      injection hp with h1 h2
      exact Except.noConfusion h1
    · rintro ⟨hv, -⟩
      exact absurd hv hm
    · rintro s b2 hp
      injection hp with h1 h2
      exact Except.noConfusion h1
    · rintro e b2 hp
      injection hp with h1 h2
      injection h1 with h1
      exact Or.inl h1.symm

/-- Claim C4 witness: the characterization applied at two concrete
prefixes — "gif87a" (case-variant magic, accepted) and "GIF88a" (exact
magic, unrecognized version, rejected). -/
theorem signature_success_characterization_witness :
    (∃ s b2, GifSignature.parse ⟨[103, 105, 102, 56, 55, 97], 6, 0⟩ = (Except.ok s, b2)) ∧
    ¬ (∃ s b2, GifSignature.parse ⟨[71, 73, 70, 56, 56, 97], 6, 0⟩ = (Except.ok s, b2)) :=
  ⟨((signature_success_characterization ⟨[103, 105, 102, 56, 55, 97], 6, 0⟩
      (by decide)).1).mpr (by decide),
   fun hex =>
    absurd (((signature_success_characterization ⟨[71, 73, 70, 56, 56, 97], 6, 0⟩
      (by decide)).1).mp hex) (by decide)⟩

/-- C6: the color-table decoder yields a table exactly when the screen
descriptor's flag is set; when set (and the bytes are there) it consumes
exactly 3 * 2^e bytes and the decoded entry count is 3 * 2^e; when clear
it consumes nothing and leaves the cursor untouched. -/
theorem globalColorMap_presence_and_length (b : GifBuffer) (sd : LogicalScreenDescriptor) :
    (sd.packed_fields.global_color_table_flag = false →
      GlobalColorMap.parse b sd = (Except.ok none, b)) ∧
    (sd.packed_fields.global_color_table_flag = true →
      b.pointer + 3 * 2 ^ sd.packed_fields.global_color_table_size ≤ b.buffer.length →
      ∃ g, GlobalColorMap.parse b sd =
          (Except.ok (some g),
            { b with pointer := b.pointer + 3 * 2 ^ sd.packed_fields.global_color_table_size }) ∧
        g.intensities.length = 3 * 2 ^ sd.packed_fields.global_color_table_size) ∧
    (∀ g b2, GlobalColorMap.parse b sd = (Except.ok (some g), b2) →
      sd.packed_fields.global_color_table_flag = true) := by
  refine ⟨?_, ?_, ?_⟩
  · intro hf
    unfold GlobalColorMap.parse
    rw [hf]
    rfl
  · intro hf hlen
    refine ⟨GlobalColorMap.mk
      (((b.buffer.drop b.pointer).take
          (3 * 2 ^ sd.packed_fields.global_color_table_size)).map
        (scaleIntensity sd.packed_fields.global_color_table_size))
      (3 * 2 ^ sd.packed_fields.global_color_table_size), ?_, ?_⟩
    · unfold GlobalColorMap.parse
      rw [hf]
      simp only [Bool.not_true, Bool.false_eq_true, if_false]
      rw [readScaledBytes_ok_of_le hlen]
      simp only [pbind, List.reverse_nil, List.nil_append]
    · simp only [List.length_map, List.length_take, List.length_drop]
      omega
  · intro g b2 hp
    cases hfc : sd.packed_fields.global_color_table_flag with
    | true => rfl
    | false =>
      unfold GlobalColorMap.parse at hp
      rw [hfc] at hp
      simp only [Bool.not_false, if_true] at hp
      injection hp with h1 h2
      cases h1

/-- Claim C6 witness: with the flag clear nothing is consumed; with the
flag set and size exponent 1 exactly six bytes are consumed and six
entries decoded. -/
theorem globalColorMap_presence_and_length_witness :
    GlobalColorMap.parse ⟨[2, 0, 0, 0, 0, 0], 6, 0⟩ sdNoTable =
      (Except.ok none, ⟨[2, 0, 0, 0, 0, 0], 6, 0⟩) ∧
    ∃ g, GlobalColorMap.parse ⟨[2, 0, 0, 0, 0, 0], 6, 0⟩ sdTableE1 =
        (Except.ok (some g), ⟨[2, 0, 0, 0, 0, 0], 6, 6⟩) ∧
      g.intensities.length = 6 :=
  ⟨(globalColorMap_presence_and_length ⟨[2, 0, 0, 0, 0, 0], 6, 0⟩ sdNoTable).1 rfl,
   (globalColorMap_presence_and_length ⟨[2, 0, 0, 0, 0, 0], 6, 0⟩ sdTableE1).2.1 rfl (by decide)⟩

/-- C8: every successful decode contains exactly one descriptor group;
the decoder pushes a single group and never loops for a trailer byte. -/
theorem decode_single_descriptor_group (bytes : List Nat) (g : Gif) (b2 : GifBuffer)
    (h : Gif.decode bytes = (Except.ok g, b2)) :
    g.descriptor_groups.length = 1 := by
  unfold Gif.decode at h
  obtain ⟨sig, b1, h1, h⟩ := pbind_ok h
  obtain ⟨lsd, bm2, h2, h⟩ := pbind_ok h
  obtain ⟨gcm, b3, h3, h⟩ := pbind_ok h
  obtain ⟨grp, b4, h4, h⟩ := pbind_ok h
  injection h with h5 h6
  injection h5 with h5
  rw [← h5]
  rfl

/-- Claim C8 witness: the 23-byte sample stream decodes successfully to
a value with exactly one descriptor group. -/
theorem decode_single_descriptor_group_witness :
    gifNoTable.descriptor_groups.length = 1 :=
  decode_single_descriptor_group sampleNoTable gifNoTable (Gif.decode sampleNoTable).2 rfl

/-- C10: on every successful decode the final cursor position — the total
number of bytes consumed — is exactly 23 plus 3 * 2^e when input byte 10
(the screen-descriptor packed byte) has bit 7 set, with e its low three
bits plus one, and exactly 23 otherwise; the local-color-table and
raster-data placeholders consume nothing. -/
theorem decode_total_bytes_consumed (bytes : List Nat) (g : Gif) (b2 : GifBuffer)
    (h : Gif.decode bytes = (Except.ok g, b2)) :
    b2.pointer = 23 +
      (if (bytes.getD 10 0 >>> 7) &&& 0b1 = 1 then
        3 * 2 ^ ((bytes.getD 10 0 &&& 0b111) + 1) else 0) := by
  unfold Gif.decode at h
  obtain ⟨sig, b1, h1, h⟩ := pbind_ok h
  obtain ⟨lsd, bm2, h2, h⟩ := pbind_ok h
  obtain ⟨gcm, b3, h3, h⟩ := pbind_ok h
  obtain ⟨grp, b4, h4, h⟩ := pbind_ok h
  obtain rfl := signature_parse_ok_inv h1
  obtain ⟨rfl, hpf⟩ := lsd_parse_ok_inv h2
  obtain rfl := gcm_parse_ok_inv h3
  obtain rfl := group_parse_ok_inv h4
  injection h with h5 h6
  have hpf2 : lsd.packed_fields = LSDPackedFields.parseByte (bytes.getD 10 0) := hpf
  have hptr : b2.pointer = 13 +
      (if lsd.packed_fields.global_color_table_flag = true then
        3 * 2 ^ lsd.packed_fields.global_color_table_size else 0) + 10 := by
    rw [← h6]
  rw [hptr, hpf2]
  simp only [LSDPackedFields.parseByte, beq_iff_eq]
  by_cases hbit : (bytes.getD 10 0 >>> 7) &&& 0b1 = 1
  · simp [hbit]
    omega
  · simp [hbit]
    omega

/-- Claim C10 witness: the 29-byte sample with a present global color
table (size exponent 1) ends with the cursor at 23 + 6 = 29. -/
theorem decode_total_bytes_consumed_witness :
    (Gif.decode sampleWithTable).2.pointer = 23 +
      (if (sampleWithTable.getD 10 0 >>> 7) &&& 0b1 = 1 then
        3 * 2 ^ ((sampleWithTable.getD 10 0 &&& 0b111) + 1) else 0) :=
  decode_total_bytes_consumed sampleWithTable gifWithTable (Gif.decode sampleWithTable).2 rfl
